import Mathlib

/-!
Verification of the inference-pipeline template in
src/stepfunctions/template/pipeline/inference.py.

The Python code mutates nested dictionaries and lists in place, and the
claims include frame and aliasing properties, so we use a small heap
model: a heap maps addresses to objects, where an object is either a
dictionary (an association list preserving insertion order, as Python
dictionaries do) or an array.  Values stored in dictionaries and arrays
are immutable strings, integers, or references to heap objects.
Fallible operations (a KeyError, IndexError or TypeError in Python)
return none.
-/

namespace StepFn

/-- A Python value as it appears inside a dictionary or list: an
immutable string or integer, or a reference to a mutable heap object. -/
inductive HVal where
  | str (s : String)
  | int (n : Int)
  | ref (a : Nat)
  deriving DecidableEq

/-- A mutable heap object: a dictionary (insertion-ordered association
list, mirroring Python dict semantics) or an array (Python list). -/
inductive Obj where
  | dict (entries : List (String × HVal))
  | arr (elems : List HVal)
  deriving DecidableEq

/-- Dictionary lookup: the value at the first occurrence of the key. -/
def lookupKey : List (String × HVal) → String → Option HVal
  | [], _ => none
  | (k, v) :: rest, key => if k = key then some v else lookupKey rest key

/-- Python membership test: key in d. -/
def hasKey (entries : List (String × HVal)) (key : String) : Bool :=
  (lookupKey entries key).isSome

/-- Python dictionary assignment d[key] = v: replace the value at the
key in place when present, otherwise append the new entry at the end. -/
def setKey : List (String × HVal) → String → HVal → List (String × HVal)
  | [], key, v => [(key, v)]
  | (k, w) :: rest, key, v =>
      if k = key then (k, v) :: rest else (k, w) :: setKey rest key v

/-- Element of a Python list at an index (IndexError becomes none). -/
def elemAt : List HVal → Nat → Option HVal
  | [], _ => none
  | v :: _, 0 => some v
  | _ :: rest, n + 1 => elemAt rest n

/-- The heap: a partial map from addresses to objects, together with
the next fresh address. -/
structure Heap where
  mem : Nat → Option Obj
  next : Nat

/-- Read the object at an address. -/
def Heap.read (h : Heap) (a : Nat) : Option Obj :=
  h.mem a

/-- Overwrite the object at an address. -/
def Heap.write (h : Heap) (a : Nat) (o : Obj) : Heap :=
  ⟨fun b => if b = a then some o else h.mem b, h.next⟩

/-- Allocate a fresh object, returning the new heap and its address. -/
def Heap.alloc (h : Heap) (o : Obj) : Heap × Nat :=
  (⟨fun b => if b = h.next then some o else h.mem b, h.next + 1⟩, h.next)

/-- Expect a reference. -/
def asRef : HVal → Option Nat
  | .ref a => some a
  | _ => none

/-- Expect a string. -/
def asStr : HVal → Option String
  | .str s => some s
  | _ => none

/-- The dictionary stored at an address. -/
def dictAt (h : Heap) (a : Nat) : Option (List (String × HVal)) :=
  match h.read a with
  | some (.dict d) => some d
  | _ => none

/-- The array stored at an address. -/
def arrAt (h : Heap) (a : Nat) : Option (List HVal) :=
  match h.read a with
  | some (.arr l) => some l
  | _ => none

/-- Python read d[key] on the dictionary object at an address. -/
def getItem (h : Heap) (a : Nat) (key : String) : Option HVal :=
  match dictAt h a with
  | none => none
  | some d => lookupKey d key

/-- Python write d[key] = v on the dictionary object at an address. -/
def setItem (h : Heap) (a : Nat) (key : String) (v : HVal) : Option Heap :=
  match dictAt h a with
  | none => none
  | some d => some (h.write a (.dict (setKey d key v)))

/-- Read d[key] and expect a reference to a heap object. -/
def getRefItem (h : Heap) (a : Nat) (key : String) : Option Nat :=
  match getItem h a key with
  | none => none
  | some v => asRef v

/-- Read d[key] and expect a string. -/
def getStrItem (h : Heap) (a : Nat) (key : String) : Option String :=
  match getItem h a key with
  | none => none
  | some v => asStr v

/-! ### Step identifiers

Modelled from the spec: the StepId enumeration lives in
stepfunctions/template/pipeline/common.py, which is not part of the
sources here; the inference pipeline uses the seven members below as
keys of the input template and as state names.  Only their
distinctness matters to the claims. -/

/-- Modelled from the spec: the seven step identifiers of the inference
pipeline (preprocess, package preprocessor, transform, train, package,
configure endpoint, deploy). -/
inductive StepId where
  | TrainPreprocessor
  | CreatePreprocessorModel
  | TransformInput
  | Train
  | CreatePipelineModel
  | ConfigureEndpoint
  | Deploy
  deriving DecidableEq

/-- Modelled from the spec: the string value of each step identifier,
used as the state name and as the key of the input template.  The
claims only depend on these being pairwise distinct. -/
def StepId.value : StepId → String
  | .TrainPreprocessor => "Train Preprocessor"
  | .CreatePreprocessorModel => "Create Preprocessor Model"
  | .TransformInput => "Transform Input"
  | .Train => "Training"
  | .CreatePipelineModel => "Create Pipeline Model"
  | .ConfigureEndpoint => "Configure Endpoint"
  | .Deploy => "Deploy"

/-- The constant sagemaker.model.JOB_NAME_PARAM_NAME from the external
sagemaker library.  The claims treat it symbolically; its concrete
value is irrelevant to them. -/
def JOB_NAME_PARAM_NAME : String := "sagemaker_job_name"

/-- Source lines 178-180: replace_sagemaker_job_name(config, job_name).
If JOB_NAME_PARAM_NAME is a key of config[HyperParameters], set that
entry to the job name wrapped in double quotes; otherwise do nothing.
The config argument is the address of the configuration dictionary. -/
def replace_sagemaker_job_name (h : Heap) (config : Nat) (job_name : String) :
    Option Heap :=
  match getRefItem h config "HyperParameters" with
  | none => none
  | some hpAddr =>
  match dictAt h hpAddr with
  | none => none
  | some hpDict =>
  if hasKey hpDict JOB_NAME_PARAM_NAME then
    setItem h hpAddr JOB_NAME_PARAM_NAME (.str ("\"" ++ job_name ++ "\""))
  else
    some h

/-- Source lines 195-196: if hyperparameters is not None, assign the
caller-supplied dictionary (a reference) into the Train step config. -/
def assignHyperparameters (h : Heap) (inputs : Nat) (hp : Option Nat) :
    Option Heap :=
  match hp with
  | none => some h
  | some a =>
  match getRefItem h inputs StepId.Train.value with
  | none => none
  | some tr => setItem h tr "HyperParameters" (.ref a)

/-- Source lines 259-260: for variant in ProductionVariants, set the
ModelName of each variant dictionary to the job name. -/
def setEachVariantModelName (job_name : String) :
    List HVal → Heap → Option Heap
  | [], h => some h
  | v :: rest, h =>
    match asRef v with
    | none => none
    | some a =>
    match setItem h a "ModelName" (.str job_name) with
    | none => none
    | some h => setEachVariantModelName job_name rest h

/-- Source lines 202-223 of InferencePipeline.execute: configure the
preprocessor training step, the preprocessor model step and the
transform step. -/
def configurePreprocessor (s3_bucket workflow_name : String) (h : Heap)
    (inputs : Nat) (job_name : String) : Option Heap :=
  -- line 202
  match getRefItem h inputs StepId.TrainPreprocessor.value with
  | none => none
  | some pre =>
  match setItem h pre "TrainingJobName" (.str ("preprocessor-" ++ job_name)) with
  | none => none
  | some h =>
  -- lines 203-206
  match getRefItem h inputs StepId.TrainPreprocessor.value with
  | none => none
  | some pre =>
  match getRefItem h pre "OutputDataConfig" with
  | none => none
  | some odc =>
  match setItem h odc "S3OutputPath"
      (.str ("s3://" ++ s3_bucket ++ "/" ++ workflow_name ++ "/models")) with
  | none => none
  | some h =>
  -- lines 207-210
  match getRefItem h inputs StepId.TrainPreprocessor.value with
  | none => none
  | some pre =>
  match getRefItem h pre "DebugHookConfig" with
  | none => none
  | some dhc =>
  match setItem h dhc "S3OutputPath"
      (.str ("s3://" ++ s3_bucket ++ "/" ++ workflow_name ++ "/models/debug")) with
  | none => none
  | some h =>
  -- lines 211-214
  match getRefItem h inputs StepId.TrainPreprocessor.value with
  | none => none
  | some pre =>
  match getRefItem h pre "OutputDataConfig" with
  | none => none
  | some odc =>
  match getStrItem h odc "S3OutputPath" with
  | none => none
  | some s3_uri =>
  match getStrItem h pre "TrainingJobName" with
  | none => none
  | some job =>
  match getRefItem h inputs StepId.CreatePreprocessorModel.value with
  | none => none
  | some pcm =>
  match getRefItem h pcm "PrimaryContainer" with
  | none => none
  | some prim =>
  match setItem h prim "ModelDataUrl"
      (.str (s3_uri ++ "/" ++ job ++ "/output/model.tar.gz")) with
  | none => none
  | some h =>
  -- line 215
  match getRefItem h inputs StepId.TrainPreprocessor.value with
  | none => none
  | some pre =>
  match getItem h pre "TrainingJobName" with
  | none => none
  | some v =>
  match getRefItem h inputs StepId.CreatePreprocessorModel.value with
  | none => none
  | some pcm =>
  match setItem h pcm "ModelName" v with
  | none => none
  | some h =>
  -- line 216
  match getRefItem h inputs StepId.CreatePreprocessorModel.value with
  | none => none
  | some pcm =>
  match getItem h pcm "ModelName" with
  | none => none
  | some v =>
  match getRefItem h inputs StepId.TransformInput.value with
  | none => none
  | some ti =>
  match setItem h ti "ModelName" v with
  | none => none
  | some h =>
  -- line 217
  match getRefItem h inputs StepId.CreatePreprocessorModel.value with
  | none => none
  | some pcm =>
  match getItem h pcm "ModelName" with
  | none => none
  | some v =>
  match getRefItem h inputs StepId.TransformInput.value with
  | none => none
  | some ti =>
  match setItem h ti "TransformJobName" v with
  | none => none
  | some h =>
  -- lines 218-222
  match getRefItem h inputs StepId.TransformInput.value with
  | none => none
  | some ti =>
  match getRefItem h ti "TransformOutput" with
  | none => none
  | some tOut =>
  match setItem h tOut "S3OutputPath"
      (.str ("s3://" ++ s3_bucket ++ "/" ++ workflow_name ++ "/" ++
        ("preprocessor-transform-" ++ job_name) ++ "/transform")) with
  | none => none
  | some h =>
  -- line 223
  match getRefItem h inputs StepId.TrainPreprocessor.value with
  | none => none
  | some pre =>
  match getStrItem h pre "TrainingJobName" with
  | none => none
  | some tjn =>
  replace_sagemaker_job_name h pre tjn

/-- Source lines 226-248 of InferencePipeline.execute: configure the
estimator training step and the pipeline model name. -/
def configureTraining (s3_bucket workflow_name : String) (h : Heap)
    (inputs : Nat) (job_name : String) : Option Heap :=
  -- line 226
  match getRefItem h inputs StepId.Train.value with
  | none => none
  | some tr =>
  match setItem h tr "TrainingJobName" (.str ("estimator-" ++ job_name)) with
  | none => none
  | some h =>
  -- lines 227-238
  match getRefItem h inputs StepId.TransformInput.value with
  | none => none
  | some ti =>
  match getRefItem h ti "TransformOutput" with
  | none => none
  | some tOut =>
  match getStrItem h tOut "S3OutputPath" with
  | none => none
  | some s3_uri =>
  let (h, s3ds) := h.alloc (Obj.dict
    [("S3DataDistributionType", .str "FullyReplicated"),
     ("S3DataType", .str "S3Prefix"),
     ("S3Uri", .str s3_uri)])
  let (h, ds) := h.alloc (Obj.dict [("S3DataSource", .ref s3ds)])
  let (h, chan) := h.alloc (Obj.dict
    [("ChannelName", .str "train"), ("DataSource", .ref ds)])
  let (h, idc) := h.alloc (Obj.arr [.ref chan])
  match getRefItem h inputs StepId.Train.value with
  | none => none
  | some tr =>
  match setItem h tr "InputDataConfig" (.ref idc) with
  | none => none
  | some h =>
  -- lines 239-242
  match getRefItem h inputs StepId.Train.value with
  | none => none
  | some tr =>
  match getRefItem h tr "OutputDataConfig" with
  | none => none
  | some odc =>
  match setItem h odc "S3OutputPath"
      (.str ("s3://" ++ s3_bucket ++ "/" ++ workflow_name ++ "/models")) with
  | none => none
  | some h =>
  -- lines 243-246
  match getRefItem h inputs StepId.Train.value with
  | none => none
  | some tr =>
  match getRefItem h tr "DebugHookConfig" with
  | none => none
  | some dhc =>
  match setItem h dhc "S3OutputPath"
      (.str ("s3://" ++ s3_bucket ++ "/" ++ workflow_name ++ "/models/debug")) with
  | none => none
  | some h =>
  -- line 247
  match getRefItem h inputs StepId.CreatePipelineModel.value with
  | none => none
  | some cpm =>
  match setItem h cpm "ModelName" (.str job_name) with
  | none => none
  | some h =>
  -- line 248
  match getRefItem h inputs StepId.Train.value with
  | none => none
  | some tr =>
  match getStrItem h tr "TrainingJobName" with
  | none => none
  | some tjn =>
  replace_sagemaker_job_name h tr tjn

/-- Source lines 251-255 of InferencePipeline.execute: make the two
containers of the pipeline model point at the model artifacts of the
preprocessor and of the estimator. -/
def configurePipelineModel (h : Heap) (inputs : Nat) : Option Heap :=
  -- line 251
  match getRefItem h inputs StepId.CreatePipelineModel.value with
  | none => none
  | some cpm =>
  match getRefItem h cpm "Containers" with
  | none => none
  | some contsAddr =>
  match arrAt h contsAddr with
  | none => none
  | some conts =>
  match elemAt conts 0 with
  | none => none
  | some c0v =>
  match asRef c0v with
  | none => none
  | some c0 =>
  match getRefItem h inputs StepId.CreatePreprocessorModel.value with
  | none => none
  | some pcm =>
  match getRefItem h pcm "PrimaryContainer" with
  | none => none
  | some prim =>
  match getItem h prim "ModelDataUrl" with
  | none => none
  | some mdu =>
  match setItem h c0 "ModelDataUrl" mdu with
  | none => none
  | some h =>
  -- lines 252-255
  match getRefItem h inputs StepId.CreatePipelineModel.value with
  | none => none
  | some cpm =>
  match getRefItem h cpm "Containers" with
  | none => none
  | some contsAddr =>
  match arrAt h contsAddr with
  | none => none
  | some conts =>
  match elemAt conts 1 with
  | none => none
  | some c1v =>
  match asRef c1v with
  | none => none
  | some c1 =>
  match getRefItem h inputs StepId.Train.value with
  | none => none
  | some tr =>
  match getRefItem h tr "OutputDataConfig" with
  | none => none
  | some odc =>
  match getStrItem h odc "S3OutputPath" with
  | none => none
  | some s3_uri =>
  match getStrItem h tr "TrainingJobName" with
  | none => none
  | some job =>
  setItem h c1 "ModelDataUrl" (.str (s3_uri ++ "/" ++ job ++ "/output/model.tar.gz"))

/-- Source lines 258-262 of InferencePipeline.execute: configure the
endpoint configuration and deployment steps. -/
def configureEndpoint (h : Heap) (inputs : Nat) (job_name : String) :
    Option Heap :=
  -- line 258
  match getRefItem h inputs StepId.ConfigureEndpoint.value with
  | none => none
  | some cep =>
  match setItem h cep "EndpointConfigName" (.str job_name) with
  | none => none
  | some h =>
  -- lines 259-260
  match getRefItem h inputs StepId.ConfigureEndpoint.value with
  | none => none
  | some cep =>
  match getRefItem h cep "ProductionVariants" with
  | none => none
  | some pv =>
  match arrAt h pv with
  | none => none
  | some vars =>
  match setEachVariantModelName job_name vars h with
  | none => none
  | some h =>
  -- lines 261-262
  match getRefItem h inputs StepId.Deploy.value with
  | none => none
  | some dep =>
  match setItem h dep "EndpointConfigName" (.str job_name) with
  | none => none
  | some h =>
  match getRefItem h inputs StepId.Deploy.value with
  | none => none
  | some dep =>
  setItem h dep "EndpointName" (.str job_name)

/-- Source lines 182-264: the body of InferencePipeline.execute.  It
shallowly copies the input template, patches the per-run parameters
into the copy (mutating the shared nested dictionaries in place), and
returns the heap, the address of the inputs dictionary handed to
workflow.execute, and the execution name handed to workflow.execute.
The job name defaults to a generated name (the timestamp-based name
produced by the missing common.py helper is passed in as
generated_name), and hyperparameters is the address of the
caller-supplied dictionary, or none. -/
def executeInputs (s3_bucket workflow_name : String) (input_template : Nat)
    (h0 : Heap) (job_name? : Option String) (generated_name : String)
    (hyperparameters : Option Nat) : Option (Heap × Nat × String) :=
  -- line 193: inputs = self.input_template.copy()
  match dictAt h0 input_template with
  | none => none
  | some tmpl =>
  let (h, inputs) := h0.alloc (Obj.dict tmpl)
  -- lines 195-196
  match assignHyperparameters h inputs hyperparameters with
  | none => none
  | some h =>
  -- lines 198-199
  let job_name := job_name?.getD generated_name
  match configurePreprocessor s3_bucket workflow_name h inputs job_name with
  | none => none
  | some h =>
  match configureTraining s3_bucket workflow_name h inputs job_name with
  | none => none
  | some h =>
  match configurePipelineModel h inputs with
  | none => none
  | some h =>
  match configureEndpoint h inputs job_name with
  | none => none
  | some h =>
  -- line 264: return workflow.execute(inputs=inputs, name=job_name)
  some (h, inputs, job_name)

/-! ### The input template

Modelled from the spec: self.input_template is produced at
construction by extract_input_template (in the missing common.py) and
maps each step id to the parameters dictionary of that step of the
definition.  The per-step dictionaries hold the nested configuration
objects that execute dereferences (the training output and debug
configs, the primary container, the transform output, the two
containers of the pipeline model, the single production variant that
EndpointConfigStep creates), plus arbitrary further entries, and the
nested dictionaries have arbitrary contents: the structure below is
parametrised by all of them. -/

/-- The unknown contents of the input template: the trailing entries
of each per-step dictionary and the full contents of each nested
dictionary. -/
structure TemplateData where
  preRest : List (String × HVal)
  preHP : List (String × HVal)
  preODC : List (String × HVal)
  preDHC : List (String × HVal)
  pcmRest : List (String × HVal)
  primary : List (String × HVal)
  tiRest : List (String × HVal)
  transformOut : List (String × HVal)
  trRest : List (String × HVal)
  trHP : List (String × HVal)
  trODC : List (String × HVal)
  trDHC : List (String × HVal)
  cpmRest : List (String × HVal)
  cont0 : List (String × HVal)
  cont1 : List (String × HVal)
  cepRest : List (String × HVal)
  variant : List (String × HVal)
  depRest : List (String × HVal)

/-- Modelled from the spec: the memory of the input template heap.
Address 0 is the template dictionary itself; addresses 1 to 7 are the
seven per-step parameter dictionaries; the rest are the nested
objects they reference. -/
def templMem (td : TemplateData) : Nat → Option Obj := fun a =>
  if a = 0 then some (.dict
    [(StepId.TrainPreprocessor.value, .ref 1),
     (StepId.CreatePreprocessorModel.value, .ref 2),
     (StepId.TransformInput.value, .ref 3),
     (StepId.Train.value, .ref 4),
     (StepId.CreatePipelineModel.value, .ref 5),
     (StepId.ConfigureEndpoint.value, .ref 6),
     (StepId.Deploy.value, .ref 7)])
  else if a = 1 then some (.dict
    ([("HyperParameters", .ref 8), ("OutputDataConfig", .ref 9),
      ("DebugHookConfig", .ref 10)] ++ td.preRest))
  else if a = 2 then some (.dict ([("PrimaryContainer", .ref 11)] ++ td.pcmRest))
  else if a = 3 then some (.dict ([("TransformOutput", .ref 12)] ++ td.tiRest))
  else if a = 4 then some (.dict
    ([("HyperParameters", .ref 13), ("OutputDataConfig", .ref 14),
      ("DebugHookConfig", .ref 15)] ++ td.trRest))
  else if a = 5 then some (.dict ([("Containers", .ref 16)] ++ td.cpmRest))
  else if a = 6 then some (.dict ([("ProductionVariants", .ref 19)] ++ td.cepRest))
  else if a = 7 then some (.dict td.depRest)
  else if a = 8 then some (.dict td.preHP)
  else if a = 9 then some (.dict td.preODC)
  else if a = 10 then some (.dict td.preDHC)
  else if a = 11 then some (.dict td.primary)
  else if a = 12 then some (.dict td.transformOut)
  else if a = 13 then some (.dict td.trHP)
  else if a = 14 then some (.dict td.trODC)
  else if a = 15 then some (.dict td.trDHC)
  else if a = 16 then some (.arr [.ref 17, .ref 18])
  else if a = 17 then some (.dict td.cont0)
  else if a = 18 then some (.dict td.cont1)
  else if a = 19 then some (.arr [.ref 20])
  else if a = 20 then some (.dict td.variant)
  else none

/-- The heap holding the input template (self.input_template lives at
address 0). -/
def templateHeap (td : TemplateData) : Heap :=
  ⟨templMem td, 21⟩

/-! ### Readers used to state the claims -/

/-- One step of a navigation path: a dictionary field or an array
index. -/
inductive Acc where
  | fld (k : String)
  | idx (i : Nat)

/-- Navigate from a value through dictionary fields and array
indexes. -/
def accRead (h : Heap) : HVal → List Acc → Option HVal
  | v, [] => some v
  | v, .fld k :: rest =>
    match asRef v with
    | none => none
    | some a =>
    match getItem h a k with
    | none => none
    | some w => accRead h w rest
  | v, .idx i :: rest =>
    match asRef v with
    | none => none
    | some a =>
    match arrAt h a with
    | none => none
    | some l =>
    match elemAt l i with
    | none => none
    | some w => accRead h w rest

/-- Read a path starting at the inputs dictionary that an execute
result passes to workflow.execute. -/
def execRead (res : Option (Heap × Nat × String)) (p : List Acc) : Option HVal :=
  match res with
  | none => none
  | some r => accRead r.1 (.ref r.2.1) p

/-- Read a path starting at an arbitrary root object in the final heap
of an execute result (used to look through self.input_template). -/
def resReadAt (res : Option (Heap × Nat × String)) (root : Nat) (p : List Acc) :
    Option HVal :=
  match res with
  | none => none
  | some r => accRead r.1 (.ref root) p

/-- Read a path expecting it to end at an array, and return the array
elements. -/
def execReadArr (res : Option (Heap × Nat × String)) (p : List Acc) :
    Option (List HVal) :=
  match execRead res p with
  | none => none
  | some w =>
  match res with
  | none => none
  | some r =>
  match asRef w with
  | none => none
  | some a => arrAt r.1 a

/-- The execution name that execute passes to workflow.execute. -/
def execName (res : Option (Heap × Nat × String)) : Option String :=
  match res with
  | none => none
  | some r => some r.2.2

/-- The object stored at an address in the final heap of an execute
result. -/
def resObjAt (res : Option (Heap × Nat × String)) (a : Nat) : Option Obj :=
  match res with
  | none => none
  | some r => r.1.read a

/-- The entries of the top-level inputs dictionary that execute passes
to workflow.execute. -/
def execTopDict (res : Option (Heap × Nat × String)) :
    Option (List (String × HVal)) :=
  match res with
  | none => none
  | some r => dictAt r.1 r.2.1

/-- A call to execute on a freshly constructed pipeline with
hyperparameters=None: the heap holds just the input template. -/
def runNoHP (td : TemplateData) (s3_bucket workflow_name : String)
    (job_name? : Option String) (generated_name : String) :
    Option (Heap × Nat × String) :=
  executeInputs s3_bucket workflow_name 0 (templateHeap td) job_name?
    generated_name none

/-- The heap holding the input template together with a caller-supplied
hyperparameters dictionary, and the address of that dictionary. -/
def callerHeap (td : TemplateData) (chp : List (String × HVal)) : Heap × Nat :=
  (templateHeap td).alloc (Obj.dict chp)

/-- A call to execute with a caller-supplied hyperparameters
dictionary. -/
def runWithHP (td : TemplateData) (chp : List (String × HVal))
    (s3_bucket workflow_name : String) (job_name? : Option String)
    (generated_name : String) : Option (Heap × Nat × String) :=
  executeInputs s3_bucket workflow_name 0 (callerHeap td chp).1 job_name?
    generated_name (some (callerHeap td chp).2)

/-- A subsequent call to execute on the heap left by a previous call,
against the same input template at address 0. -/
def execAgain (res : Option (Heap × Nat × String))
    (s3_bucket workflow_name : String) (job_name? : Option String)
    (generated_name : String) (hyperparameters : Option Nat) :
    Option (Heap × Nat × String) :=
  match res with
  | none => none
  | some r =>
    executeInputs s3_bucket workflow_name 0 r.1 job_name? generated_name
      hyperparameters

/-! ### The workflow definition

The step classes (TrainingStep, ModelStep, TransformStep,
EndpointConfigStep, EndpointStep, Fail, Catch, Chain) come from
stepfunctions.steps, which is not part of the sources here; they are
modelled from the spec as states aggregated into a chain. -/

/-- Modelled from the spec: the kind of a state.  The five step
constructors used by build_workflow_definition create task-like
states; the Fail class (imported at source line 21 but never
instantiated) creates Fail states. -/
inductive StateKind where
  | task
  | fail
  deriving DecidableEq

/-- Modelled from the spec: a state of the workflow definition, with
its identifier, its kind, and its catch clauses.  None of the step
constructors called by build_workflow_definition attach catch
clauses. -/
structure State where
  id : String
  kind : StateKind
  catchClauses : List String
  deriving DecidableEq

/-- Modelled from the spec: TrainingStep creates a task state with no
catch clauses. -/
def TrainingStep (id : String) : State := ⟨id, .task, []⟩

/-- Modelled from the spec: ModelStep creates a task state with no
catch clauses. -/
def ModelStep (id : String) : State := ⟨id, .task, []⟩

/-- Modelled from the spec: TransformStep creates a task state with no
catch clauses. -/
def TransformStep (id : String) : State := ⟨id, .task, []⟩

/-- Modelled from the spec: EndpointConfigStep creates a task state
with no catch clauses. -/
def EndpointConfigStep (id : String) : State := ⟨id, .task, []⟩

/-- Modelled from the spec: EndpointStep creates a task state with no
catch clauses. -/
def EndpointStep (id : String) : State := ⟨id, .task, []⟩

/-- Modelled from the spec: the Fail class creates a Fail state (it is
imported at source line 21 but build_workflow_definition never calls
it). -/
def Fail (id : String) : State := ⟨id, .fail, []⟩

/-- Modelled from the spec: Chain aggregates the given states in
order. -/
structure Chain where
  steps : List State
  deriving DecidableEq

/-- Channel lookup in a dictionary of training channels. -/
def lookupChannel : List (String × String) → String → Option String
  | [], _ => none
  | (k, v) :: rest, key => if k = key then some v else lookupChannel rest key

/-- The inputs argument of the pipeline: a plain S3 URI string or a
dictionary of channels.  The other documented forms (s3_input,
RecordSet, lists of RecordSet) behave like the string case for the
subscript at source line 112: none of them is subscriptable by the
string key train. -/
inductive Inputs where
  | s3uri (s : String)
  | channels (m : List (String × String))
  deriving DecidableEq

/-- Python subscript inputs[key]; a KeyError or TypeError becomes
none. -/
def Inputs.getItem : Inputs → String → Option String
  | .s3uri _, _ => none
  | .channels m, key => lookupChannel m key

/-- Source lines 81-169: build_workflow_definition.  The sagemaker
estimator and model plumbing is external; what the claims depend on is
which step constructors are called, the order in which the steps are
chained at lines 161-169, and that line 112 subscripts self.inputs
with the key train while building the transform step.  Returns none
exactly when that subscript raises. -/
def build_workflow_definition (inputs : Inputs) : Option Chain :=
  -- lines 94-99
  let preprocessor_train_step := TrainingStep StepId.TrainPreprocessor.value
  -- lines 100-106
  let preprocessor_model_step := ModelStep StepId.CreatePreprocessorModel.value
  -- lines 107-115: data=self.inputs['train']
  match Inputs.getItem inputs "train" with
  | none => none
  | some _train_data =>
  let preprocessor_transform_step := TransformStep StepId.TransformInput.value
  -- lines 121-126
  let training_step := TrainingStep StepId.Train.value
  -- lines 128-142
  let pipeline_model_step := ModelStep StepId.CreatePipelineModel.value
  -- lines 147-153
  let endpoint_config_step := EndpointConfigStep StepId.ConfigureEndpoint.value
  -- lines 155-159
  let deploy_step := EndpointStep StepId.Deploy.value
  -- lines 161-169
  some (Chain.mk
    [preprocessor_train_step,
     preprocessor_model_step,
     preprocessor_transform_step,
     training_step,
     pipeline_model_step,
     endpoint_config_step,
     deploy_step])

/-- The fields of InferencePipeline relevant to the claims (source
lines 42-79): the pipeline name (defaulted at lines 71-72 when the
kwarg is absent or empty, mirroring Python truthiness) and the
definition built once at line 74 and stored. -/
structure InferencePipeline where
  pipeline_name : String
  s3_bucket : String
  definition : Chain
  deriving DecidableEq

/-- Source lines 42-79: construction of an InferencePipeline.  The
generated_timestamp argument stands for the timestamp produced by the
missing common.py helper.  Returns none exactly when
build_workflow_definition raises. -/
def InferencePipeline.init (pipeline_name? : Option String)
    (generated_timestamp : String) (inputs : Inputs) (s3_bucket : String) :
    Option InferencePipeline :=
  -- lines 68-72
  let name :=
    match pipeline_name? with
    | none => "inference-pipeline-" ++ generated_timestamp
    | some n =>
      if n = "" then "inference-pipeline-" ++ generated_timestamp else n
  -- line 74
  match build_workflow_definition inputs with
  | none => none
  | some d => some ⟨name, s3_bucket, d⟩


/-! ### Association-list lemmas shared by the proofs -/

/-- Writing a key and reading it back yields the written value. -/
theorem lookupKey_setKey_self (l : List (String × HVal)) (k : String) (v : HVal) :
    lookupKey (setKey l k v) k = some v := by
  induction l with
  | nil => simp [setKey, lookupKey]
  | cons a rest ih =>
    obtain ⟨k1, w⟩ := a
    by_cases h : k1 = k
    · simp [setKey, h, lookupKey]
    · simp [setKey, h, lookupKey, ih]

/-- Writing a key leaves every other key unchanged. -/
theorem lookupKey_setKey_ne (l : List (String × HVal)) (k k' : String) (v : HVal)
    (h : k' ≠ k) :
    lookupKey (setKey l k v) k' = lookupKey l k' := by
  induction l with
  | nil => simp [setKey, lookupKey, Ne.symm h]
  | cons a rest ih =>
    obtain ⟨k1, w⟩ := a
    by_cases h1 : k1 = k
    · subst h1
      simp [setKey, lookupKey, Ne.symm h]
    · simp [setKey, h1, lookupKey, ih]

/-- A key just written is present. -/
theorem hasKey_setKey_self (l : List (String × HVal)) (k : String) (v : HVal) :
    hasKey (setKey l k v) k = true := by
  simp [hasKey, lookupKey_setKey_self]

/-! ### Evaluation of execute on the input template

The two lemmas below evaluate executeInputs symbolically over an
arbitrary input template (and an arbitrary caller hyperparameters
dictionary), for an arbitrary job name, bucket and workflow name, and
record every field of the resulting execution input that the claims
mention.  The claim theorems project out of them. -/

set_option maxHeartbeats 4000000 in
/-- Symbolic evaluation of execute with hyperparameters=None on the
input template. -/
theorem executeInputs_noHP_spec (td : TemplateData) (s3_bucket workflow_name generated_name : String)
    (job_name? : Option String) :
    (execName (runNoHP td s3_bucket workflow_name job_name? generated_name) = some (job_name?.getD generated_name)) ∧
    (execRead (runNoHP td s3_bucket workflow_name job_name? generated_name) [.fld StepId.TrainPreprocessor.value, .fld "TrainingJobName"] = some (.str ("preprocessor-" ++ (job_name?.getD generated_name)))) ∧
    (execRead (runNoHP td s3_bucket workflow_name job_name? generated_name) [.fld StepId.TrainPreprocessor.value, .fld "OutputDataConfig", .fld "S3OutputPath"] = some (.str ("s3://" ++ s3_bucket ++ "/" ++ workflow_name ++ "/models"))) ∧
    (execRead (runNoHP td s3_bucket workflow_name job_name? generated_name) [.fld StepId.TrainPreprocessor.value, .fld "DebugHookConfig", .fld "S3OutputPath"] = some (.str ("s3://" ++ s3_bucket ++ "/" ++ workflow_name ++ "/models/debug"))) ∧
    (execRead (runNoHP td s3_bucket workflow_name job_name? generated_name) [.fld StepId.CreatePreprocessorModel.value, .fld "PrimaryContainer", .fld "ModelDataUrl"] = some (.str (("s3://" ++ s3_bucket ++ "/" ++ workflow_name ++ "/models") ++ "/" ++ ("preprocessor-" ++ (job_name?.getD generated_name)) ++ "/output/model.tar.gz"))) ∧
    (execRead (runNoHP td s3_bucket workflow_name job_name? generated_name) [.fld StepId.CreatePreprocessorModel.value, .fld "ModelName"] = some (.str ("preprocessor-" ++ (job_name?.getD generated_name)))) ∧
    (execRead (runNoHP td s3_bucket workflow_name job_name? generated_name) [.fld StepId.TransformInput.value, .fld "ModelName"] = some (.str ("preprocessor-" ++ (job_name?.getD generated_name)))) ∧
    (execRead (runNoHP td s3_bucket workflow_name job_name? generated_name) [.fld StepId.TransformInput.value, .fld "TransformJobName"] = some (.str ("preprocessor-" ++ (job_name?.getD generated_name)))) ∧
    (execRead (runNoHP td s3_bucket workflow_name job_name? generated_name) [.fld StepId.TransformInput.value, .fld "TransformOutput", .fld "S3OutputPath"] = some (.str ("s3://" ++ s3_bucket ++ "/" ++ workflow_name ++ "/" ++ ("preprocessor-transform-" ++ (job_name?.getD generated_name)) ++ "/transform"))) ∧
    (execRead (runNoHP td s3_bucket workflow_name job_name? generated_name) [.fld StepId.Train.value, .fld "TrainingJobName"] = some (.str ("estimator-" ++ (job_name?.getD generated_name)))) ∧
    (execRead (runNoHP td s3_bucket workflow_name job_name? generated_name) [.fld StepId.Train.value, .fld "InputDataConfig", .idx 0, .fld "ChannelName"] = some (.str "train")) ∧
    (execRead (runNoHP td s3_bucket workflow_name job_name? generated_name) [.fld StepId.Train.value, .fld "InputDataConfig", .idx 0, .fld "DataSource", .fld "S3DataSource", .fld "S3Uri"] = some (.str ("s3://" ++ s3_bucket ++ "/" ++ workflow_name ++ "/" ++ ("preprocessor-transform-" ++ (job_name?.getD generated_name)) ++ "/transform"))) ∧
    ((execReadArr (runNoHP td s3_bucket workflow_name job_name? generated_name) [.fld StepId.Train.value, .fld "InputDataConfig"]).map List.length = some 1) ∧
    (execRead (runNoHP td s3_bucket workflow_name job_name? generated_name) [.fld StepId.Train.value, .fld "OutputDataConfig", .fld "S3OutputPath"] = some (.str ("s3://" ++ s3_bucket ++ "/" ++ workflow_name ++ "/models"))) ∧
    (execRead (runNoHP td s3_bucket workflow_name job_name? generated_name) [.fld StepId.Train.value, .fld "DebugHookConfig", .fld "S3OutputPath"] = some (.str ("s3://" ++ s3_bucket ++ "/" ++ workflow_name ++ "/models/debug"))) ∧
    (execRead (runNoHP td s3_bucket workflow_name job_name? generated_name) [.fld StepId.CreatePipelineModel.value, .fld "ModelName"] = some (.str (job_name?.getD generated_name))) ∧
    (execRead (runNoHP td s3_bucket workflow_name job_name? generated_name) [.fld StepId.CreatePipelineModel.value, .fld "Containers", .idx 0, .fld "ModelDataUrl"] = some (.str (("s3://" ++ s3_bucket ++ "/" ++ workflow_name ++ "/models") ++ "/" ++ ("preprocessor-" ++ (job_name?.getD generated_name)) ++ "/output/model.tar.gz"))) ∧
    (execRead (runNoHP td s3_bucket workflow_name job_name? generated_name) [.fld StepId.CreatePipelineModel.value, .fld "Containers", .idx 1, .fld "ModelDataUrl"] = some (.str (("s3://" ++ s3_bucket ++ "/" ++ workflow_name ++ "/models") ++ "/" ++ ("estimator-" ++ (job_name?.getD generated_name)) ++ "/output/model.tar.gz"))) ∧
    (execRead (runNoHP td s3_bucket workflow_name job_name? generated_name) [.fld StepId.ConfigureEndpoint.value, .fld "EndpointConfigName"] = some (.str (job_name?.getD generated_name))) ∧
    (execRead (runNoHP td s3_bucket workflow_name job_name? generated_name) [.fld StepId.ConfigureEndpoint.value, .fld "ProductionVariants", .idx 0, .fld "ModelName"] = some (.str (job_name?.getD generated_name))) ∧
    ((execReadArr (runNoHP td s3_bucket workflow_name job_name? generated_name) [.fld StepId.ConfigureEndpoint.value, .fld "ProductionVariants"]).map List.length = some 1) ∧
    (execRead (runNoHP td s3_bucket workflow_name job_name? generated_name) [.fld StepId.Deploy.value, .fld "EndpointConfigName"] = some (.str (job_name?.getD generated_name))) ∧
    (execRead (runNoHP td s3_bucket workflow_name job_name? generated_name) [.fld StepId.Deploy.value, .fld "EndpointName"] = some (.str (job_name?.getD generated_name))) ∧
    (resObjAt (runNoHP td s3_bucket workflow_name job_name? generated_name) 0 = Heap.read (templateHeap td) 0) ∧
    (execTopDict (runNoHP td s3_bucket workflow_name job_name? generated_name) = dictAt (templateHeap td) 0) ∧
    (resReadAt (runNoHP td s3_bucket workflow_name job_name? generated_name) 0 [.fld StepId.Train.value, .fld "TrainingJobName"] = some (.str ("estimator-" ++ (job_name?.getD generated_name)))) ∧
    (resReadAt (runNoHP td s3_bucket workflow_name job_name? generated_name) 0 [.fld StepId.TrainPreprocessor.value, .fld "TrainingJobName"] = some (.str ("preprocessor-" ++ (job_name?.getD generated_name)))) := by
  cases hpre : hasKey td.preHP JOB_NAME_PARAM_NAME <;>
  cases htr : hasKey td.trHP JOB_NAME_PARAM_NAME <;>
    simp [executeInputs, configurePreprocessor, configureTraining,
      configurePipelineModel, configureEndpoint, assignHyperparameters,
      setEachVariantModelName, replace_sagemaker_job_name,
      getRefItem, getStrItem, getItem, setItem, dictAt, arrAt,
      Heap.read, Heap.write, Heap.alloc, templateHeap, templMem,
      lookupKey, setKey, elemAt, asRef, asStr, StepId.value,
      runNoHP, runWithHP, callerHeap, execAgain,
      execName, execRead, execReadArr, resObjAt, execTopDict, resReadAt,
      accRead,
      lookupKey_setKey_self, lookupKey_setKey_ne, hasKey_setKey_self,
      hpre, htr]

set_option maxHeartbeats 4000000 in
/-- Symbolic evaluation of execute with a caller-supplied
hyperparameters dictionary on the input template, followed by a second
call on the resulting heap. -/
theorem executeInputs_withHP_spec (td : TemplateData) (chp : List (String × HVal))
    (s3_bucket workflow_name generated_name second_job second_generated : String)
    (job_name? : Option String) :
    (execName (runWithHP td chp s3_bucket workflow_name job_name? generated_name) = some (job_name?.getD generated_name)) ∧
    (execRead (runWithHP td chp s3_bucket workflow_name job_name? generated_name) [.fld StepId.TrainPreprocessor.value, .fld "TrainingJobName"] = some (.str ("preprocessor-" ++ (job_name?.getD generated_name)))) ∧
    (execRead (runWithHP td chp s3_bucket workflow_name job_name? generated_name) [.fld StepId.TrainPreprocessor.value, .fld "OutputDataConfig", .fld "S3OutputPath"] = some (.str ("s3://" ++ s3_bucket ++ "/" ++ workflow_name ++ "/models"))) ∧
    (execRead (runWithHP td chp s3_bucket workflow_name job_name? generated_name) [.fld StepId.TrainPreprocessor.value, .fld "DebugHookConfig", .fld "S3OutputPath"] = some (.str ("s3://" ++ s3_bucket ++ "/" ++ workflow_name ++ "/models/debug"))) ∧
    (execRead (runWithHP td chp s3_bucket workflow_name job_name? generated_name) [.fld StepId.CreatePreprocessorModel.value, .fld "PrimaryContainer", .fld "ModelDataUrl"] = some (.str (("s3://" ++ s3_bucket ++ "/" ++ workflow_name ++ "/models") ++ "/" ++ ("preprocessor-" ++ (job_name?.getD generated_name)) ++ "/output/model.tar.gz"))) ∧
    (execRead (runWithHP td chp s3_bucket workflow_name job_name? generated_name) [.fld StepId.CreatePreprocessorModel.value, .fld "ModelName"] = some (.str ("preprocessor-" ++ (job_name?.getD generated_name)))) ∧
    (execRead (runWithHP td chp s3_bucket workflow_name job_name? generated_name) [.fld StepId.TransformInput.value, .fld "ModelName"] = some (.str ("preprocessor-" ++ (job_name?.getD generated_name)))) ∧
    (execRead (runWithHP td chp s3_bucket workflow_name job_name? generated_name) [.fld StepId.TransformInput.value, .fld "TransformJobName"] = some (.str ("preprocessor-" ++ (job_name?.getD generated_name)))) ∧
    (execRead (runWithHP td chp s3_bucket workflow_name job_name? generated_name) [.fld StepId.TransformInput.value, .fld "TransformOutput", .fld "S3OutputPath"] = some (.str ("s3://" ++ s3_bucket ++ "/" ++ workflow_name ++ "/" ++ ("preprocessor-transform-" ++ (job_name?.getD generated_name)) ++ "/transform"))) ∧
    (execRead (runWithHP td chp s3_bucket workflow_name job_name? generated_name) [.fld StepId.Train.value, .fld "TrainingJobName"] = some (.str ("estimator-" ++ (job_name?.getD generated_name)))) ∧
    (execRead (runWithHP td chp s3_bucket workflow_name job_name? generated_name) [.fld StepId.Train.value, .fld "InputDataConfig", .idx 0, .fld "ChannelName"] = some (.str "train")) ∧
    (execRead (runWithHP td chp s3_bucket workflow_name job_name? generated_name) [.fld StepId.Train.value, .fld "InputDataConfig", .idx 0, .fld "DataSource", .fld "S3DataSource", .fld "S3Uri"] = some (.str ("s3://" ++ s3_bucket ++ "/" ++ workflow_name ++ "/" ++ ("preprocessor-transform-" ++ (job_name?.getD generated_name)) ++ "/transform"))) ∧
    ((execReadArr (runWithHP td chp s3_bucket workflow_name job_name? generated_name) [.fld StepId.Train.value, .fld "InputDataConfig"]).map List.length = some 1) ∧
    (execRead (runWithHP td chp s3_bucket workflow_name job_name? generated_name) [.fld StepId.Train.value, .fld "OutputDataConfig", .fld "S3OutputPath"] = some (.str ("s3://" ++ s3_bucket ++ "/" ++ workflow_name ++ "/models"))) ∧
    (execRead (runWithHP td chp s3_bucket workflow_name job_name? generated_name) [.fld StepId.Train.value, .fld "DebugHookConfig", .fld "S3OutputPath"] = some (.str ("s3://" ++ s3_bucket ++ "/" ++ workflow_name ++ "/models/debug"))) ∧
    (execRead (runWithHP td chp s3_bucket workflow_name job_name? generated_name) [.fld StepId.CreatePipelineModel.value, .fld "ModelName"] = some (.str (job_name?.getD generated_name))) ∧
    (execRead (runWithHP td chp s3_bucket workflow_name job_name? generated_name) [.fld StepId.CreatePipelineModel.value, .fld "Containers", .idx 0, .fld "ModelDataUrl"] = some (.str (("s3://" ++ s3_bucket ++ "/" ++ workflow_name ++ "/models") ++ "/" ++ ("preprocessor-" ++ (job_name?.getD generated_name)) ++ "/output/model.tar.gz"))) ∧
    (execRead (runWithHP td chp s3_bucket workflow_name job_name? generated_name) [.fld StepId.CreatePipelineModel.value, .fld "Containers", .idx 1, .fld "ModelDataUrl"] = some (.str (("s3://" ++ s3_bucket ++ "/" ++ workflow_name ++ "/models") ++ "/" ++ ("estimator-" ++ (job_name?.getD generated_name)) ++ "/output/model.tar.gz"))) ∧
    (execRead (runWithHP td chp s3_bucket workflow_name job_name? generated_name) [.fld StepId.ConfigureEndpoint.value, .fld "EndpointConfigName"] = some (.str (job_name?.getD generated_name))) ∧
    (execRead (runWithHP td chp s3_bucket workflow_name job_name? generated_name) [.fld StepId.ConfigureEndpoint.value, .fld "ProductionVariants", .idx 0, .fld "ModelName"] = some (.str (job_name?.getD generated_name))) ∧
    ((execReadArr (runWithHP td chp s3_bucket workflow_name job_name? generated_name) [.fld StepId.ConfigureEndpoint.value, .fld "ProductionVariants"]).map List.length = some 1) ∧
    (execRead (runWithHP td chp s3_bucket workflow_name job_name? generated_name) [.fld StepId.Deploy.value, .fld "EndpointConfigName"] = some (.str (job_name?.getD generated_name))) ∧
    (execRead (runWithHP td chp s3_bucket workflow_name job_name? generated_name) [.fld StepId.Deploy.value, .fld "EndpointName"] = some (.str (job_name?.getD generated_name))) ∧
    (resObjAt (runWithHP td chp s3_bucket workflow_name job_name? generated_name) 0 = Heap.read (templateHeap td) 0) ∧
    (execTopDict (runWithHP td chp s3_bucket workflow_name job_name? generated_name) = dictAt (templateHeap td) 0) ∧
    (resReadAt (runWithHP td chp s3_bucket workflow_name job_name? generated_name) 0 [.fld StepId.Train.value, .fld "TrainingJobName"] = some (.str ("estimator-" ++ (job_name?.getD generated_name)))) ∧
    (resReadAt (runWithHP td chp s3_bucket workflow_name job_name? generated_name) 0 [.fld StepId.TrainPreprocessor.value, .fld "TrainingJobName"] = some (.str ("preprocessor-" ++ (job_name?.getD generated_name)))) ∧
    (execRead (runWithHP td chp s3_bucket workflow_name job_name? generated_name) [.fld StepId.Train.value, .fld "HyperParameters"] = some (.ref (callerHeap td chp).2)) ∧
    (resReadAt (runWithHP td chp s3_bucket workflow_name job_name? generated_name) 0 [.fld StepId.Train.value, .fld "HyperParameters"] = some (.ref (callerHeap td chp).2)) ∧
    (execRead (execAgain (runWithHP td chp s3_bucket workflow_name job_name? generated_name) s3_bucket workflow_name (some second_job) second_generated none) [.fld StepId.Train.value, .fld "HyperParameters"] = some (.ref (callerHeap td chp).2)) := by
  cases hpre : hasKey td.preHP JOB_NAME_PARAM_NAME <;>
  cases hchp : hasKey chp JOB_NAME_PARAM_NAME <;>
    simp [executeInputs, configurePreprocessor, configureTraining,
      configurePipelineModel, configureEndpoint, assignHyperparameters,
      setEachVariantModelName, replace_sagemaker_job_name,
      getRefItem, getStrItem, getItem, setItem, dictAt, arrAt,
      Heap.read, Heap.write, Heap.alloc, templateHeap, templMem,
      lookupKey, setKey, elemAt, asRef, asStr, StepId.value,
      runNoHP, runWithHP, callerHeap, execAgain,
      execName, execRead, execReadArr, resObjAt, execTopDict, resReadAt,
      accRead,
      lookupKey_setKey_self, lookupKey_setKey_ne, hasKey_setKey_self,
      hpre, hchp]

/-- Writing one heap address leaves every other address unchanged. -/
theorem write_read_ne (h : Heap) (a b : Nat) (o : Obj) (hb : b ≠ a) :
    (h.write a o).read b = h.read b := by
  simp [Heap.write, Heap.read, hb]

/-! ### Claim theorems for the construction and for
replace_sagemaker_job_name -/

/-- Claim C7: replace_sagemaker_job_name(config, job_name) mutates
config if and only if JOB_NAME_PARAM_NAME is present in
config[HyperParameters]; in that case that single entry is set to the
job name wrapped in double quotes and everything else (the other
entries of the HyperParameters dictionary and every other heap object,
hence every other entry of config) is unchanged; when the key is
absent the heap is returned entirely unchanged. -/
theorem replace_sagemaker_job_name_frame (h : Heap) (config hpAddr : Nat)
    (d hp : List (String × HVal)) (job_name : String)
    (hc : dictAt h config = some d)
    (href : lookupKey d "HyperParameters" = some (.ref hpAddr))
    (hd : dictAt h hpAddr = some hp) :
    (hasKey hp JOB_NAME_PARAM_NAME = false →
      replace_sagemaker_job_name h config job_name = some h) ∧
    (hasKey hp JOB_NAME_PARAM_NAME = true →
      replace_sagemaker_job_name h config job_name =
        some (h.write hpAddr (.dict (setKey hp JOB_NAME_PARAM_NAME
          (.str ("\"" ++ job_name ++ "\""))))) ∧
      lookupKey (setKey hp JOB_NAME_PARAM_NAME (.str ("\"" ++ job_name ++ "\"")))
          JOB_NAME_PARAM_NAME = some (.str ("\"" ++ job_name ++ "\"")) ∧
      (∀ k, k ≠ JOB_NAME_PARAM_NAME →
        lookupKey (setKey hp JOB_NAME_PARAM_NAME (.str ("\"" ++ job_name ++ "\""))) k
          = lookupKey hp k) ∧
      (∀ b, b ≠ hpAddr →
        (h.write hpAddr (.dict (setKey hp JOB_NAME_PARAM_NAME
          (.str ("\"" ++ job_name ++ "\""))))).read b = h.read b)) := by
  constructor
  · intro habs
    simp [replace_sagemaker_job_name, getRefItem, getItem, hc, href, asRef,
      setItem, hd, habs]
  · intro hpres
    refine ⟨?_, lookupKey_setKey_self hp JOB_NAME_PARAM_NAME _, ?_, ?_⟩
    · simp [replace_sagemaker_job_name, getRefItem, getItem, hc, href, asRef,
        setItem, hd, hpres]
    · intro k hk
      exact lookupKey_setKey_ne hp JOB_NAME_PARAM_NAME k _ hk
    · intro b hb
      exact write_read_ne _ _ _ _ hb

/-- A two-object demonstration heap whose configuration dictionary has
a HyperParameters dictionary containing JOB_NAME_PARAM_NAME. -/
def replaceDemoHeapHit : Heap :=
  ⟨fun a =>
    if a = 0 then some (.dict [("HyperParameters", .ref 1)])
    else if a = 1 then some (.dict [(JOB_NAME_PARAM_NAME, .str "old")])
    else none, 2⟩

/-- A two-object demonstration heap whose HyperParameters dictionary
does not contain JOB_NAME_PARAM_NAME. -/
def replaceDemoHeapMiss : Heap :=
  ⟨fun a =>
    if a = 0 then some (.dict [("HyperParameters", .ref 1)])
    else if a = 1 then some (.dict [("eta", .str "0.1")])
    else none, 2⟩

/-- Witness for claim C7 at concrete inputs: with the key present the
entry is rewritten to the quoted job name, with the key absent the
heap is unchanged. -/
theorem replace_sagemaker_job_name_frame_witness :
    (replace_sagemaker_job_name replaceDemoHeapHit 0 "my-job" =
      some (Heap.write replaceDemoHeapHit 1 (.dict (setKey
        [(JOB_NAME_PARAM_NAME, .str "old")] JOB_NAME_PARAM_NAME
        (.str ("\"" ++ "my-job" ++ "\"")))))) ∧
    (replace_sagemaker_job_name replaceDemoHeapMiss 0 "my-job" =
      some replaceDemoHeapMiss) := by
  constructor
  · exact ((replace_sagemaker_job_name_frame replaceDemoHeapHit 0 1
      [("HyperParameters", .ref 1)] [(JOB_NAME_PARAM_NAME, .str "old")]
      "my-job" rfl rfl rfl).2 (by decide)).1
  · exact (replace_sagemaker_job_name_frame replaceDemoHeapMiss 0 1
      [("HyperParameters", .ref 1)] [("eta", .str "0.1")]
      "my-job" rfl rfl rfl).1 (by decide)

/-- Claim C2: build_workflow_definition returns a chain of exactly the
seven states TrainPreprocessor, CreatePreprocessorModel,
TransformInput, Train, CreatePipelineModel, ConfigureEndpoint, Deploy,
in this order, and this definition is what construction builds and
stores as the definition of the pipeline. -/
theorem build_workflow_definition_order (pipeline_name? : Option String)
    (generated_timestamp s3_bucket : String) (inputs : Inputs)
    (p : InferencePipeline)
    (h : InferencePipeline.init pipeline_name? generated_timestamp inputs
      s3_bucket = some p) :
    build_workflow_definition inputs = some p.definition ∧
    p.definition.steps.map State.id =
      [StepId.TrainPreprocessor.value, StepId.CreatePreprocessorModel.value,
       StepId.TransformInput.value, StepId.Train.value,
       StepId.CreatePipelineModel.value, StepId.ConfigureEndpoint.value,
       StepId.Deploy.value] ∧
    p.definition.steps.length = 7 := by
  unfold InferencePipeline.init at h
  cases hb : build_workflow_definition inputs with
  | none => rw [hb] at h; simp at h
  | some d =>
    rw [hb] at h
    simp only [Option.some.injEq] at h
    subst h
    refine ⟨rfl, ?_, ?_⟩
    · unfold build_workflow_definition at hb
      cases hg : Inputs.getItem inputs "train" with
      | none => rw [hg] at hb; simp at hb
      | some t =>
        rw [hg] at hb
        simp only [Option.some.injEq] at hb
        subst hb
        simp [TrainingStep, ModelStep, TransformStep, EndpointConfigStep,
          EndpointStep]
    · unfold build_workflow_definition at hb
      cases hg : Inputs.getItem inputs "train" with
      | none => rw [hg] at hb; simp at hb
      | some t =>
        rw [hg] at hb
        simp only [Option.some.injEq] at hb
        subst hb
        simp

/-- Witness for claim C2 at concrete inputs: a pipeline constructed
with a train channel stores the seven-state chain in order. -/
theorem build_workflow_definition_order_witness :
    build_workflow_definition
        (Inputs.channels [("train", "s3://data/train")]) =
      some (InferencePipeline.mk "pipe" "bkt" (Chain.mk
        [TrainingStep StepId.TrainPreprocessor.value,
         ModelStep StepId.CreatePreprocessorModel.value,
         TransformStep StepId.TransformInput.value,
         TrainingStep StepId.Train.value,
         ModelStep StepId.CreatePipelineModel.value,
         EndpointConfigStep StepId.ConfigureEndpoint.value,
         EndpointStep StepId.Deploy.value])).definition ∧
    (InferencePipeline.mk "pipe" "bkt" (Chain.mk
        [TrainingStep StepId.TrainPreprocessor.value,
         ModelStep StepId.CreatePreprocessorModel.value,
         TransformStep StepId.TransformInput.value,
         TrainingStep StepId.Train.value,
         ModelStep StepId.CreatePipelineModel.value,
         EndpointConfigStep StepId.ConfigureEndpoint.value,
         EndpointStep StepId.Deploy.value])).definition.steps.map State.id =
      [StepId.TrainPreprocessor.value, StepId.CreatePreprocessorModel.value,
       StepId.TransformInput.value, StepId.Train.value,
       StepId.CreatePipelineModel.value, StepId.ConfigureEndpoint.value,
       StepId.Deploy.value] := by
  have h := build_workflow_definition_order (some "pipe") "ts" "bkt"
    (Inputs.channels [("train", "s3://data/train")])
    (InferencePipeline.mk "pipe" "bkt" (Chain.mk
      [TrainingStep StepId.TrainPreprocessor.value,
       ModelStep StepId.CreatePreprocessorModel.value,
       TransformStep StepId.TransformInput.value,
       TrainingStep StepId.Train.value,
       ModelStep StepId.CreatePipelineModel.value,
       EndpointConfigStep StepId.ConfigureEndpoint.value,
       EndpointStep StepId.Deploy.value])) rfl
  exact ⟨h.1, h.2.1⟩

/-- Claim C8: the workflow definition adds no failure handling of its
own: no state of the stored definition is a Fail state and no step
carries a catch clause. -/
theorem definition_has_no_failure_handling (pipeline_name? : Option String)
    (generated_timestamp s3_bucket : String) (inputs : Inputs)
    (p : InferencePipeline)
    (h : InferencePipeline.init pipeline_name? generated_timestamp inputs
      s3_bucket = some p) :
    p.definition.steps.all
      (fun s => !(s.kind == StateKind.fail) && s.catchClauses.isEmpty) = true ∧
    (∀ s ∈ p.definition.steps, s.kind ≠ StateKind.fail ∧ s.catchClauses = []) := by
  unfold InferencePipeline.init at h
  cases hb : build_workflow_definition inputs with
  | none => rw [hb] at h; simp at h
  | some d =>
    rw [hb] at h
    simp only [Option.some.injEq] at h
    subst h
    unfold build_workflow_definition at hb
    cases hg : Inputs.getItem inputs "train" with
    | none => rw [hg] at hb; simp at hb
    | some t =>
      rw [hg] at hb
      simp only [Option.some.injEq] at hb
      subst hb
      constructor
      · simp [TrainingStep, ModelStep, TransformStep, EndpointConfigStep,
          EndpointStep]
      · intro st hst
        simp [TrainingStep, ModelStep, TransformStep, EndpointConfigStep,
          EndpointStep] at hst
        rcases hst with h1 | h1 | h1 | h1 | h1 | h1 | h1 <;> subst h1 <;>
          exact ⟨by simp [TrainingStep, ModelStep, TransformStep,
            EndpointConfigStep, EndpointStep], rfl⟩

/-- Witness for claim C8 at concrete inputs. -/
theorem definition_has_no_failure_handling_witness :
    (InferencePipeline.mk "pipe" "bkt" (Chain.mk
        [TrainingStep StepId.TrainPreprocessor.value,
         ModelStep StepId.CreatePreprocessorModel.value,
         TransformStep StepId.TransformInput.value,
         TrainingStep StepId.Train.value,
         ModelStep StepId.CreatePipelineModel.value,
         EndpointConfigStep StepId.ConfigureEndpoint.value,
         EndpointStep StepId.Deploy.value])).definition.steps.all
      (fun s => !(s.kind == StateKind.fail) && s.catchClauses.isEmpty) = true :=
  (definition_has_no_failure_handling (some "pipe") "ts" "bkt"
    (Inputs.channels [("train", "s3://data/train")])
    (InferencePipeline.mk "pipe" "bkt" (Chain.mk
      [TrainingStep StepId.TrainPreprocessor.value,
       ModelStep StepId.CreatePreprocessorModel.value,
       TransformStep StepId.TransformInput.value,
       TrainingStep StepId.Train.value,
       ModelStep StepId.CreatePipelineModel.value,
       EndpointConfigStep StepId.ConfigureEndpoint.value,
       EndpointStep StepId.Deploy.value])) rfl).1

/-- Claim C10: construction requires the inputs to be a mapping with
the key train: with a plain S3 URI string, or with a channel
dictionary lacking the key train, build_workflow_definition and hence
construction raise instead of producing a pipeline. -/
theorem init_requires_train_channel (pipeline_name? : Option String)
    (generated_timestamp s3_bucket s : String)
    (m : List (String × String)) :
    InferencePipeline.init pipeline_name? generated_timestamp
      (Inputs.s3uri s) s3_bucket = none ∧
    build_workflow_definition (Inputs.s3uri s) = none ∧
    (Inputs.getItem (Inputs.channels m) "train" = none →
      InferencePipeline.init pipeline_name? generated_timestamp
        (Inputs.channels m) s3_bucket = none ∧
      build_workflow_definition (Inputs.channels m) = none) := by
  refine ⟨?_, rfl, ?_⟩
  · simp [InferencePipeline.init, build_workflow_definition, Inputs.getItem]
  · intro hg
    constructor
    · simp [InferencePipeline.init, build_workflow_definition, hg]
    · simp [build_workflow_definition, hg]

/-- Witness for claim C10 at concrete inputs: an S3 URI string and a
channel dictionary without a train channel are both rejected. -/
theorem init_requires_train_channel_witness :
    InferencePipeline.init (some "pipe") "ts"
      (Inputs.s3uri "s3://data/train") "bkt" = none ∧
    InferencePipeline.init (some "pipe") "ts"
      (Inputs.channels [("validation", "s3://data/val")]) "bkt" = none := by
  have h := init_requires_train_channel (some "pipe") "ts" "bkt"
    "s3://data/train" [("validation", "s3://data/val")]
  exact ⟨h.1, (h.2.2 (by decide)).1⟩

/-! ### String normalisation lemmas for the derived URIs -/

/-- The derived preprocessor model artifact location as one flat
string. -/
theorem preprocessorModelUri_flat (s3_bucket workflow_name job_name : String) :
    ("s3://" ++ s3_bucket ++ "/" ++ workflow_name ++ "/models") ++ "/" ++
        ("preprocessor-" ++ job_name) ++ "/output/model.tar.gz" =
      "s3://" ++ s3_bucket ++ "/" ++ workflow_name ++ "/models/preprocessor-" ++
        job_name ++ "/output/model.tar.gz" := by
  apply String.ext
  simp [String.data_append, List.append_assoc]

/-- The derived estimator model artifact location as one flat
string. -/
theorem estimatorModelUri_flat (s3_bucket workflow_name job_name : String) :
    ("s3://" ++ s3_bucket ++ "/" ++ workflow_name ++ "/models") ++ "/" ++
        ("estimator-" ++ job_name) ++ "/output/model.tar.gz" =
      "s3://" ++ s3_bucket ++ "/" ++ workflow_name ++ "/models/estimator-" ++
        job_name ++ "/output/model.tar.gz" := by
  apply String.ext
  simp [String.data_append, List.append_assoc]

/-- The derived transform output location as one flat string. -/
theorem transformUri_flat (s3_bucket workflow_name job_name : String) :
    "s3://" ++ s3_bucket ++ "/" ++ workflow_name ++ "/" ++
        ("preprocessor-transform-" ++ job_name) ++ "/transform" =
      "s3://" ++ s3_bucket ++ "/" ++ workflow_name ++
        "/preprocessor-transform-" ++ job_name ++ "/transform" := by
  apply String.ext
  simp [String.data_append, List.append_assoc]

/-! ### Claim theorems for execute -/

/-- Claim C1: for every call to execute(job_name, hyperparameters)
with job_name a string, before the execution is started the TrainPreprocessor
TrainingJobName is set to preprocessor- plus the job name, the Train
TrainingJobName is set to estimator- plus the job name, when
hyperparameters is not None the Train HyperParameters mapping is
replaced by the provided dictionary, and the execution is started
under the name job_name. -/
theorem execute_patches_run_parameters (td : TemplateData)
    (chp : List (String × HVal))
    (s3_bucket workflow_name generated_name job_name : String) :
    (execRead (runWithHP td chp s3_bucket workflow_name (some job_name) generated_name) [.fld StepId.TrainPreprocessor.value, .fld "TrainingJobName"] =
      some (.str ("preprocessor-" ++ job_name))) ∧
    (execRead (runWithHP td chp s3_bucket workflow_name (some job_name) generated_name) [.fld StepId.Train.value, .fld "TrainingJobName"] =
      some (.str ("estimator-" ++ job_name))) ∧
    (execRead (runWithHP td chp s3_bucket workflow_name (some job_name) generated_name) [.fld StepId.Train.value, .fld "HyperParameters"] =
      some (.ref (callerHeap td chp).2)) ∧
    (execName (runWithHP td chp s3_bucket workflow_name (some job_name) generated_name) = some job_name) ∧
    (execRead (runNoHP td s3_bucket workflow_name (some job_name) generated_name) [.fld StepId.TrainPreprocessor.value, .fld "TrainingJobName"] =
      some (.str ("preprocessor-" ++ job_name))) ∧
    (execRead (runNoHP td s3_bucket workflow_name (some job_name) generated_name) [.fld StepId.Train.value, .fld "TrainingJobName"] =
      some (.str ("estimator-" ++ job_name))) ∧
    (execName (runNoHP td s3_bucket workflow_name (some job_name) generated_name) = some job_name) := by
  have HW := executeInputs_withHP_spec td chp s3_bucket workflow_name
    generated_name generated_name generated_name (some job_name)
  have HN := executeInputs_noHP_spec td s3_bucket workflow_name
    generated_name (some job_name)
  simp only [Option.getD_some] at HW HN
  obtain ⟨w1, w2, w3, w4, w5, w6, w7, w8, w9, w10, w11, w12, w13, w14, w15, w16, w17, w18, w19, w20, w21, w22, w23, w24, w25, w26, w27, w28, w29, w30⟩ := HW
  obtain ⟨n1, n2, n3, n4, n5, n6, n7, n8, n9, n10, n11, n12, n13, n14, n15, n16, n17, n18, n19, n20, n21, n22, n23, n24, n25, n26, n27⟩ := HN
  exact ⟨w2, w10, w28, w1, n2, n10, n1⟩

/-- Claim C3: for every call to execute with job_name a string, the
job names propagated across dependent steps agree: the TransformInput
ModelName and TransformJobName both equal the CreatePreprocessorModel
ModelName, which equals the TrainPreprocessor TrainingJobName,
preprocessor- plus the job name; and the CreatePipelineModel
ModelName, the ConfigureEndpoint EndpointConfigName, the ModelName of
every production variant (the configuration has exactly one), and the
Deploy EndpointConfigName and EndpointName all equal the job name. -/
theorem execute_job_name_propagation (td : TemplateData)
    (chp : List (String × HVal))
    (s3_bucket workflow_name generated_name job_name : String) :
    (execRead (runWithHP td chp s3_bucket workflow_name (some job_name) generated_name) [.fld StepId.TransformInput.value, .fld "ModelName"] =
      execRead (runWithHP td chp s3_bucket workflow_name (some job_name) generated_name) [.fld StepId.CreatePreprocessorModel.value, .fld "ModelName"]) ∧
    (execRead (runWithHP td chp s3_bucket workflow_name (some job_name) generated_name) [.fld StepId.TransformInput.value, .fld "TransformJobName"] =
      execRead (runWithHP td chp s3_bucket workflow_name (some job_name) generated_name) [.fld StepId.CreatePreprocessorModel.value, .fld "ModelName"]) ∧
    (execRead (runWithHP td chp s3_bucket workflow_name (some job_name) generated_name) [.fld StepId.CreatePreprocessorModel.value, .fld "ModelName"] =
      execRead (runWithHP td chp s3_bucket workflow_name (some job_name) generated_name) [.fld StepId.TrainPreprocessor.value, .fld "TrainingJobName"]) ∧
    (execRead (runWithHP td chp s3_bucket workflow_name (some job_name) generated_name) [.fld StepId.TrainPreprocessor.value, .fld "TrainingJobName"] =
      some (.str ("preprocessor-" ++ job_name))) ∧
    (execRead (runWithHP td chp s3_bucket workflow_name (some job_name) generated_name) [.fld StepId.CreatePipelineModel.value, .fld "ModelName"] = some (.str job_name)) ∧
    (execRead (runWithHP td chp s3_bucket workflow_name (some job_name) generated_name) [.fld StepId.ConfigureEndpoint.value, .fld "EndpointConfigName"] = some (.str job_name)) ∧
    ((execReadArr (runWithHP td chp s3_bucket workflow_name (some job_name) generated_name) [.fld StepId.ConfigureEndpoint.value, .fld "ProductionVariants"]).map List.length =
      some 1) ∧
    (execRead (runWithHP td chp s3_bucket workflow_name (some job_name) generated_name) [.fld StepId.ConfigureEndpoint.value, .fld "ProductionVariants", .idx 0, .fld "ModelName"] =
      some (.str job_name)) ∧
    (execRead (runWithHP td chp s3_bucket workflow_name (some job_name) generated_name) [.fld StepId.Deploy.value, .fld "EndpointConfigName"] = some (.str job_name)) ∧
    (execRead (runWithHP td chp s3_bucket workflow_name (some job_name) generated_name) [.fld StepId.Deploy.value, .fld "EndpointName"] = some (.str job_name)) ∧
    (execRead (runNoHP td s3_bucket workflow_name (some job_name) generated_name) [.fld StepId.TransformInput.value, .fld "ModelName"] =
      execRead (runNoHP td s3_bucket workflow_name (some job_name) generated_name) [.fld StepId.CreatePreprocessorModel.value, .fld "ModelName"]) ∧
    (execRead (runNoHP td s3_bucket workflow_name (some job_name) generated_name) [.fld StepId.TransformInput.value, .fld "TransformJobName"] =
      execRead (runNoHP td s3_bucket workflow_name (some job_name) generated_name) [.fld StepId.CreatePreprocessorModel.value, .fld "ModelName"]) ∧
    (execRead (runNoHP td s3_bucket workflow_name (some job_name) generated_name) [.fld StepId.CreatePreprocessorModel.value, .fld "ModelName"] =
      execRead (runNoHP td s3_bucket workflow_name (some job_name) generated_name) [.fld StepId.TrainPreprocessor.value, .fld "TrainingJobName"]) ∧
    (execRead (runNoHP td s3_bucket workflow_name (some job_name) generated_name) [.fld StepId.TrainPreprocessor.value, .fld "TrainingJobName"] =
      some (.str ("preprocessor-" ++ job_name))) ∧
    (execRead (runNoHP td s3_bucket workflow_name (some job_name) generated_name) [.fld StepId.CreatePipelineModel.value, .fld "ModelName"] = some (.str job_name)) ∧
    (execRead (runNoHP td s3_bucket workflow_name (some job_name) generated_name) [.fld StepId.ConfigureEndpoint.value, .fld "EndpointConfigName"] = some (.str job_name)) ∧
    ((execReadArr (runNoHP td s3_bucket workflow_name (some job_name) generated_name) [.fld StepId.ConfigureEndpoint.value, .fld "ProductionVariants"]).map List.length =
      some 1) ∧
    (execRead (runNoHP td s3_bucket workflow_name (some job_name) generated_name) [.fld StepId.ConfigureEndpoint.value, .fld "ProductionVariants", .idx 0, .fld "ModelName"] =
      some (.str job_name)) ∧
    (execRead (runNoHP td s3_bucket workflow_name (some job_name) generated_name) [.fld StepId.Deploy.value, .fld "EndpointConfigName"] = some (.str job_name)) ∧
    (execRead (runNoHP td s3_bucket workflow_name (some job_name) generated_name) [.fld StepId.Deploy.value, .fld "EndpointName"] = some (.str job_name)) := by
  have HW := executeInputs_withHP_spec td chp s3_bucket workflow_name
    generated_name generated_name generated_name (some job_name)
  have HN := executeInputs_noHP_spec td s3_bucket workflow_name
    generated_name (some job_name)
  simp only [Option.getD_some] at HW HN
  obtain ⟨w1, w2, w3, w4, w5, w6, w7, w8, w9, w10, w11, w12, w13, w14, w15, w16, w17, w18, w19, w20, w21, w22, w23, w24, w25, w26, w27, w28, w29, w30⟩ := HW
  obtain ⟨n1, n2, n3, n4, n5, n6, n7, n8, n9, n10, n11, n12, n13, n14, n15, n16, n17, n18, n19, n20, n21, n22, n23, n24, n25, n26, n27⟩ := HN
  exact ⟨w7.trans w6.symm, w8.trans w6.symm, w6.trans w2.symm, w2, w16, w19,
    w21, w20, w22, w23,
    n7.trans n6.symm, n8.trans n6.symm, n6.trans n2.symm, n2, n16, n19,
    n21, n20, n22, n23⟩

/-- Claim C4: for every call to execute with job_name a string, the
derived S3 URIs agree with their specification: the
CreatePreprocessorModel PrimaryContainer ModelDataUrl is the
preprocessor model artifact under models/preprocessor-job_name, the
TransformInput TransformOutput S3OutputPath is the
preprocessor-transform-job_name transform prefix, and the Train
InputDataConfig is a single train channel whose S3Uri equals that
transform output path. -/
theorem execute_derived_s3_uris (td : TemplateData)
    (chp : List (String × HVal))
    (s3_bucket workflow_name generated_name job_name : String) :
    (execRead (runWithHP td chp s3_bucket workflow_name (some job_name) generated_name) [.fld StepId.CreatePreprocessorModel.value, .fld "PrimaryContainer", .fld "ModelDataUrl"] =
      some (.str ("s3://" ++ s3_bucket ++ "/" ++ workflow_name ++ "/models/preprocessor-" ++ job_name ++ "/output/model.tar.gz"))) ∧
    (execRead (runWithHP td chp s3_bucket workflow_name (some job_name) generated_name) [.fld StepId.TransformInput.value, .fld "TransformOutput", .fld "S3OutputPath"] =
      some (.str ("s3://" ++ s3_bucket ++ "/" ++ workflow_name ++ "/preprocessor-transform-" ++ job_name ++ "/transform"))) ∧
    ((execReadArr (runWithHP td chp s3_bucket workflow_name (some job_name) generated_name) [.fld StepId.Train.value, .fld "InputDataConfig"]).map List.length =
      some 1) ∧
    (execRead (runWithHP td chp s3_bucket workflow_name (some job_name) generated_name) [.fld StepId.Train.value, .fld "InputDataConfig", .idx 0, .fld "ChannelName"] =
      some (.str "train")) ∧
    (execRead (runWithHP td chp s3_bucket workflow_name (some job_name) generated_name) [.fld StepId.Train.value, .fld "InputDataConfig", .idx 0, .fld "DataSource",
        .fld "S3DataSource", .fld "S3Uri"] =
      execRead (runWithHP td chp s3_bucket workflow_name (some job_name) generated_name) [.fld StepId.TransformInput.value, .fld "TransformOutput", .fld "S3OutputPath"]) ∧
    (execRead (runNoHP td s3_bucket workflow_name (some job_name) generated_name) [.fld StepId.CreatePreprocessorModel.value, .fld "PrimaryContainer", .fld "ModelDataUrl"] =
      some (.str ("s3://" ++ s3_bucket ++ "/" ++ workflow_name ++ "/models/preprocessor-" ++ job_name ++ "/output/model.tar.gz"))) ∧
    (execRead (runNoHP td s3_bucket workflow_name (some job_name) generated_name) [.fld StepId.TransformInput.value, .fld "TransformOutput", .fld "S3OutputPath"] =
      some (.str ("s3://" ++ s3_bucket ++ "/" ++ workflow_name ++ "/preprocessor-transform-" ++ job_name ++ "/transform"))) ∧
    ((execReadArr (runNoHP td s3_bucket workflow_name (some job_name) generated_name) [.fld StepId.Train.value, .fld "InputDataConfig"]).map List.length =
      some 1) ∧
    (execRead (runNoHP td s3_bucket workflow_name (some job_name) generated_name) [.fld StepId.Train.value, .fld "InputDataConfig", .idx 0, .fld "ChannelName"] =
      some (.str "train")) ∧
    (execRead (runNoHP td s3_bucket workflow_name (some job_name) generated_name) [.fld StepId.Train.value, .fld "InputDataConfig", .idx 0, .fld "DataSource",
        .fld "S3DataSource", .fld "S3Uri"] =
      execRead (runNoHP td s3_bucket workflow_name (some job_name) generated_name) [.fld StepId.TransformInput.value, .fld "TransformOutput", .fld "S3OutputPath"]) := by
  have HW := executeInputs_withHP_spec td chp s3_bucket workflow_name
    generated_name generated_name generated_name (some job_name)
  have HN := executeInputs_noHP_spec td s3_bucket workflow_name
    generated_name (some job_name)
  simp only [Option.getD_some] at HW HN
  obtain ⟨w1, w2, w3, w4, w5, w6, w7, w8, w9, w10, w11, w12, w13, w14, w15, w16, w17, w18, w19, w20, w21, w22, w23, w24, w25, w26, w27, w28, w29, w30⟩ := HW
  obtain ⟨n1, n2, n3, n4, n5, n6, n7, n8, n9, n10, n11, n12, n13, n14, n15, n16, n17, n18, n19, n20, n21, n22, n23, n24, n25, n26, n27⟩ := HN
  rw [preprocessorModelUri_flat] at w5 n5
  have w9f := w9
  have n9f := n9
  rw [transformUri_flat] at w9f n9f
  exact ⟨w5, w9f, w13, w11, w12.trans w9.symm, n5, n9f, n13, n11,
    n12.trans n9.symm⟩

/-- Claim C5: for every call to execute, both training steps have
OutputDataConfig S3OutputPath equal to the models prefix and
DebugHookConfig S3OutputPath equal to the models/debug prefix of the
bucket and workflow name. -/
theorem execute_output_and_debug_paths (td : TemplateData)
    (chp : List (String × HVal))
    (s3_bucket workflow_name generated_name : String)
    (job_name? : Option String) :
    (execRead (runWithHP td chp s3_bucket workflow_name job_name? generated_name) [.fld StepId.TrainPreprocessor.value, .fld "OutputDataConfig", .fld "S3OutputPath"] =
      some (.str ("s3://" ++ s3_bucket ++ "/" ++ workflow_name ++ "/models"))) ∧
    (execRead (runWithHP td chp s3_bucket workflow_name job_name? generated_name) [.fld StepId.TrainPreprocessor.value, .fld "DebugHookConfig", .fld "S3OutputPath"] =
      some (.str ("s3://" ++ s3_bucket ++ "/" ++ workflow_name ++ "/models/debug"))) ∧
    (execRead (runWithHP td chp s3_bucket workflow_name job_name? generated_name) [.fld StepId.Train.value, .fld "OutputDataConfig", .fld "S3OutputPath"] =
      some (.str ("s3://" ++ s3_bucket ++ "/" ++ workflow_name ++ "/models"))) ∧
    (execRead (runWithHP td chp s3_bucket workflow_name job_name? generated_name) [.fld StepId.Train.value, .fld "DebugHookConfig", .fld "S3OutputPath"] =
      some (.str ("s3://" ++ s3_bucket ++ "/" ++ workflow_name ++ "/models/debug"))) ∧
    (execRead (runNoHP td s3_bucket workflow_name job_name? generated_name) [.fld StepId.TrainPreprocessor.value, .fld "OutputDataConfig", .fld "S3OutputPath"] =
      some (.str ("s3://" ++ s3_bucket ++ "/" ++ workflow_name ++ "/models"))) ∧
    (execRead (runNoHP td s3_bucket workflow_name job_name? generated_name) [.fld StepId.TrainPreprocessor.value, .fld "DebugHookConfig", .fld "S3OutputPath"] =
      some (.str ("s3://" ++ s3_bucket ++ "/" ++ workflow_name ++ "/models/debug"))) ∧
    (execRead (runNoHP td s3_bucket workflow_name job_name? generated_name) [.fld StepId.Train.value, .fld "OutputDataConfig", .fld "S3OutputPath"] =
      some (.str ("s3://" ++ s3_bucket ++ "/" ++ workflow_name ++ "/models"))) ∧
    (execRead (runNoHP td s3_bucket workflow_name job_name? generated_name) [.fld StepId.Train.value, .fld "DebugHookConfig", .fld "S3OutputPath"] =
      some (.str ("s3://" ++ s3_bucket ++ "/" ++ workflow_name ++ "/models/debug"))) := by
  have HW := executeInputs_withHP_spec td chp s3_bucket workflow_name
    generated_name generated_name generated_name job_name?
  have HN := executeInputs_noHP_spec td s3_bucket workflow_name
    generated_name job_name?
  obtain ⟨w1, w2, w3, w4, w5, w6, w7, w8, w9, w10, w11, w12, w13, w14, w15, w16, w17, w18, w19, w20, w21, w22, w23, w24, w25, w26, w27, w28, w29, w30⟩ := HW
  obtain ⟨n1, n2, n3, n4, n5, n6, n7, n8, n9, n10, n11, n12, n13, n14, n15, n16, n17, n18, n19, n20, n21, n22, n23, n24, n25, n26, n27⟩ := HN
  exact ⟨w3, w4, w14, w15, n3, n4, n14, n15⟩

/-- Claim C6: for every call to execute with job_name a string, the
containers of the pipeline model agree with the upstream steps: the
first container ModelDataUrl equals the CreatePreprocessorModel
PrimaryContainer ModelDataUrl, and the second equals the Train
OutputDataConfig S3OutputPath joined with the Train TrainingJobName
and output/model.tar.gz, that is the estimator model artifact under
models/estimator-job_name. -/
theorem execute_pipeline_model_containers (td : TemplateData)
    (chp : List (String × HVal))
    (s3_bucket workflow_name generated_name job_name : String) :
    (execRead (runWithHP td chp s3_bucket workflow_name (some job_name) generated_name) [.fld StepId.CreatePipelineModel.value, .fld "Containers", .idx 0, .fld "ModelDataUrl"] =
      execRead (runWithHP td chp s3_bucket workflow_name (some job_name) generated_name) [.fld StepId.CreatePreprocessorModel.value, .fld "PrimaryContainer", .fld "ModelDataUrl"]) ∧
    (execRead (runWithHP td chp s3_bucket workflow_name (some job_name) generated_name) [.fld StepId.CreatePipelineModel.value, .fld "Containers", .idx 1, .fld "ModelDataUrl"] =
      some (.str (("s3://" ++ s3_bucket ++ "/" ++ workflow_name ++ "/models") ++ "/" ++ ("estimator-" ++ job_name) ++ "/output/model.tar.gz"))) ∧
    (execRead (runWithHP td chp s3_bucket workflow_name (some job_name) generated_name) [.fld StepId.CreatePipelineModel.value, .fld "Containers", .idx 1, .fld "ModelDataUrl"] =
      some (.str ("s3://" ++ s3_bucket ++ "/" ++ workflow_name ++ "/models/estimator-" ++ job_name ++ "/output/model.tar.gz"))) ∧
    (execRead (runNoHP td s3_bucket workflow_name (some job_name) generated_name) [.fld StepId.CreatePipelineModel.value, .fld "Containers", .idx 0, .fld "ModelDataUrl"] =
      execRead (runNoHP td s3_bucket workflow_name (some job_name) generated_name) [.fld StepId.CreatePreprocessorModel.value, .fld "PrimaryContainer", .fld "ModelDataUrl"]) ∧
    (execRead (runNoHP td s3_bucket workflow_name (some job_name) generated_name) [.fld StepId.CreatePipelineModel.value, .fld "Containers", .idx 1, .fld "ModelDataUrl"] =
      some (.str (("s3://" ++ s3_bucket ++ "/" ++ workflow_name ++ "/models") ++ "/" ++ ("estimator-" ++ job_name) ++ "/output/model.tar.gz"))) ∧
    (execRead (runNoHP td s3_bucket workflow_name (some job_name) generated_name) [.fld StepId.CreatePipelineModel.value, .fld "Containers", .idx 1, .fld "ModelDataUrl"] =
      some (.str ("s3://" ++ s3_bucket ++ "/" ++ workflow_name ++ "/models/estimator-" ++ job_name ++ "/output/model.tar.gz"))) := by
  have HW := executeInputs_withHP_spec td chp s3_bucket workflow_name
    generated_name generated_name generated_name (some job_name)
  have HN := executeInputs_noHP_spec td s3_bucket workflow_name
    generated_name (some job_name)
  simp only [Option.getD_some] at HW HN
  obtain ⟨w1, w2, w3, w4, w5, w6, w7, w8, w9, w10, w11, w12, w13, w14, w15, w16, w17, w18, w19, w20, w21, w22, w23, w24, w25, w26, w27, w28, w29, w30⟩ := HW
  obtain ⟨n1, n2, n3, n4, n5, n6, n7, n8, n9, n10, n11, n12, n13, n14, n15, n16, n17, n18, n19, n20, n21, n22, n23, n24, n25, n26, n27⟩ := HN
  have w18f := w18
  have n18f := n18
  rw [estimatorModelUri_flat] at w18f n18f
  exact ⟨w17.trans w5.symm, w18, w18f, n17.trans n5.symm, n18, n18f⟩

/-- Claim C9: execute copies the input template only shallowly: the
top-level template dictionary object is unchanged (same keys, same
references) and the copy passed to workflow.execute holds exactly the
same entries, while the nested per-step dictionaries are shared and
mutated in place, so the patched values, including a caller-supplied
hyperparameters dictionary assigned into the Train step, are visible
through self.input_template and in the inputs of a subsequent call to
execute. -/
theorem execute_shallow_copy_aliasing (td : TemplateData)
    (chp : List (String × HVal))
    (s3_bucket workflow_name generated_name second_job second_generated :
      String)
    (job_name? : Option String) :
    (resObjAt (runWithHP td chp s3_bucket workflow_name job_name? generated_name) 0 = Heap.read (templateHeap td) 0) ∧
    (execTopDict (runWithHP td chp s3_bucket workflow_name job_name? generated_name) = dictAt (templateHeap td) 0) ∧
    (resReadAt (runWithHP td chp s3_bucket workflow_name job_name? generated_name) 0 [.fld StepId.TrainPreprocessor.value, .fld "TrainingJobName"] =
      some (.str ("preprocessor-" ++ (job_name?.getD generated_name)))) ∧
    (resReadAt (runWithHP td chp s3_bucket workflow_name job_name? generated_name) 0 [.fld StepId.Train.value, .fld "TrainingJobName"] =
      some (.str ("estimator-" ++ (job_name?.getD generated_name)))) ∧
    (resReadAt (runWithHP td chp s3_bucket workflow_name job_name? generated_name) 0 [.fld StepId.Train.value, .fld "HyperParameters"] =
      some (.ref (callerHeap td chp).2)) ∧
    (execRead (runWithHP td chp s3_bucket workflow_name job_name? generated_name) [.fld StepId.Train.value, .fld "HyperParameters"] =
      some (.ref (callerHeap td chp).2)) ∧
    (execRead (execAgain (runWithHP td chp s3_bucket workflow_name job_name? generated_name) s3_bucket workflow_name (some second_job)
        second_generated none) [.fld StepId.Train.value, .fld "HyperParameters"] =
      some (.ref (callerHeap td chp).2)) ∧
    (resObjAt (runNoHP td s3_bucket workflow_name job_name? generated_name) 0 = Heap.read (templateHeap td) 0) ∧
    (execTopDict (runNoHP td s3_bucket workflow_name job_name? generated_name) = dictAt (templateHeap td) 0) ∧
    (resReadAt (runNoHP td s3_bucket workflow_name job_name? generated_name) 0 [.fld StepId.TrainPreprocessor.value, .fld "TrainingJobName"] =
      some (.str ("preprocessor-" ++ (job_name?.getD generated_name)))) ∧
    (resReadAt (runNoHP td s3_bucket workflow_name job_name? generated_name) 0 [.fld StepId.Train.value, .fld "TrainingJobName"] =
      some (.str ("estimator-" ++ (job_name?.getD generated_name)))) := by
  have HW := executeInputs_withHP_spec td chp s3_bucket workflow_name
    generated_name second_job second_generated job_name?
  have HN := executeInputs_noHP_spec td s3_bucket workflow_name
    generated_name job_name?
  obtain ⟨w1, w2, w3, w4, w5, w6, w7, w8, w9, w10, w11, w12, w13, w14, w15, w16, w17, w18, w19, w20, w21, w22, w23, w24, w25, w26, w27, w28, w29, w30⟩ := HW
  obtain ⟨n1, n2, n3, n4, n5, n6, n7, n8, n9, n10, n11, n12, n13, n14, n15, n16, n17, n18, n19, n20, n21, n22, n23, n24, n25, n26, n27⟩ := HN
  exact ⟨w24, w25, w27, w26, w29, w28, w30, n24, n25, n27, n26⟩

end StepFn
